import Mathlib

/-!
Shallow embedding of the unified AI inference proxy
(src/ai-inference-proxy/app.py): the backend catalog cache, the backend
selector, the protocol translator, the streaming relay and the
non-streaming orchestrator path of chat_completions.  Effects (HTTP
calls, clocks, uuid generation) are passed in explicitly as data so
every function is pure; times are naturals (seconds).
-/

namespace Proxy

/-- Cache TTL from app.py line 127: `OLLAMA_CACHE_TTL = 60`. -/
def OLLAMA_CACHE_TTL : Nat := 60

/-- One model descriptor returned by the local runtime's /api/tags.
app.py uses `model.get("name", "")`, so the name is optional. -/
structure OllamaModel where
  name : Option String
deriving DecidableEq, Repr

/-- `model.get("name", "")` (app.py line 157). -/
def modelNameOf (m : OllamaModel) : String := m.name.getD ""

/-- `model_name.split(":")[0]` (app.py lines 160, 186, 196): the portion
of the identifier before the first colon. -/
def baseName (s : String) : String := (s.splitOn ":").headD ""

/-- The module-level catalog state: `ollama_models_cache` (a dict, here an
association list preserving python dict insertion order) and
`ollama_cache_timestamp` (app.py lines 125-126). -/
structure CatalogState where
  cache : List (String × OllamaModel)
  timestamp : Option Nat
deriving DecidableEq, Repr

/-- Python dict assignment `d[k] = v`: updates in place when the key
exists, appends otherwise. -/
def dictInsert (d : List (String × OllamaModel)) (k : String) (v : OllamaModel) :
    List (String × OllamaModel) :=
  if d.any (fun p => p.1 = k) then
    d.map (fun p => if p.1 = k then (k, v) else p)
  else
    d ++ [(k, v)]

/-- The cache-building loop of get_ollama_models (app.py lines 155-162):
for each listed model store it under its base name, then under its full
name. -/
def buildCache (models : List OllamaModel) : List (String × OllamaModel) :=
  models.foldl
    (fun d m =>
      let mn := modelNameOf m
      dictInsert (dictInsert d (baseName mn) m) mn m)
    []

/-- Outcome of the GET /api/tags call: an HTTP response with a status and
(parsed) model list, or a transport-level exception. -/
inductive FetchResult where
  | response (status : Nat) (models : List OllamaModel)
  | fault
deriving DecidableEq, Repr

/-- The cache-hit test of get_ollama_models (app.py lines 144-147):
a timestamp is set, its age is below the TTL, and the cache dict is
truthy (non-empty). -/
def cacheFresh (st : CatalogState) (now : Nat) : Bool :=
  match st.timestamp with
  | none => false
  | some ts => decide (now - ts < OLLAMA_CACHE_TTL) && !st.cache.isEmpty

/-- Result of get_ollama_models: the returned name list, the catalog
state afterwards, and whether an upstream /api/tags call was issued. -/
structure GetModelsResult where
  names : List String
  state : CatalogState
  upstreamCalled : Bool
deriving DecidableEq, Repr

/-- get_ollama_models (app.py lines 139-175).  `fetch` is what the
upstream call would return if issued. -/
def get_ollama_models (st : CatalogState) (now : Nat) (fetch : FetchResult) :
    GetModelsResult :=
  if cacheFresh st now then
    { names := st.cache.map Prod.fst, state := st, upstreamCalled := false }
  else
    match fetch with
    | .response status models =>
        if status = 200 then
          let c := buildCache models
          { names := c.map Prod.fst
            state := { cache := c, timestamp := some now }
            upstreamCalled := true }
        else
          { names := [], state := st, upstreamCalled := true }
    | .fault => { names := [], state := st, upstreamCalled := true }

/-- detect_model_backend (app.py lines 177-191): "local" when the model
name or its base name occurs in the fetched name list, else "cloud".
Returns the backend string together with the catalog state left behind
by the embedded get_ollama_models call. -/
def detect_model_backend (st : CatalogState) (now : Nat) (fetch : FetchResult)
    (model_name : String) : String × CatalogState :=
  let r := get_ollama_models st now fetch
  if model_name ∈ r.names then ("local", r.state)
  else if baseName model_name ∈ r.names then ("local", r.state)
  else ("cloud", r.state)

/-- A chat message (app.py lines 93-95). -/
structure ChatMessage where
  role : String
  content : String
deriving DecidableEq, Repr

/-- The canonical ChatRequest (app.py lines 97-105), after pydantic
validation; optional sampling fields are `none` when absent. -/
structure ChatRequest where
  model : String
  messages : List ChatMessage
  temperature : Option ℚ
  max_tokens : Option ℤ
  top_p : Option ℚ
  frequency_penalty : Option ℚ
  presence_penalty : Option ℚ
  stream : Bool
deriving DecidableEq, Repr

/-- The "options" dict built by transform_ollama_request. -/
structure OllamaOptions where
  temperature : Option ℚ
  num_predict : Option ℤ
  top_p : Option ℚ
deriving DecidableEq, Repr

/-- The outbound request body for POST /api/chat. -/
structure OllamaRequest where
  model : String
  messages : List ChatMessage
  stream : Bool
  options : Option OllamaOptions
deriving DecidableEq, Repr

/-- transform_ollama_request (app.py lines 193-217): strip the tag from
the model name, copy messages and the stream flag, and add each sampling
parameter to the options dict only when it is not None; the options dict
itself exists only if some parameter was added. -/
def transform_ollama_request (r : ChatRequest) : OllamaRequest :=
  let o0 : Option OllamaOptions := none
  let o1 := match r.temperature with
    | some t => some { (o0.getD ⟨none, none, none⟩) with temperature := some t }
    | none => o0
  let o2 := match r.max_tokens with
    | some n => some { (o1.getD ⟨none, none, none⟩) with num_predict := some n }
    | none => o1
  let o3 := match r.top_p with
    | some p => some { (o2.getD ⟨none, none, none⟩) with top_p := some p }
    | none => o2
  { model := baseName r.model
    messages := r.messages
    stream := r.stream
    options := o3 }

/-- The temperature carried by the outbound options object, if any. -/
def optTemperature (q : OllamaRequest) : Option ℚ := q.options.bind (·.temperature)

/-- The num_predict carried by the outbound options object, if any. -/
def optNumPredict (q : OllamaRequest) : Option ℤ := q.options.bind (·.num_predict)

/-- The top_p carried by the outbound options object, if any. -/
def optTopP (q : OllamaRequest) : Option ℚ := q.options.bind (·.top_p)

/-- `message` member of a local-runtime response object. -/
structure OllamaMessage where
  role : Option String
  content : Option String
deriving DecidableEq, Repr

/-- A local-runtime single-shot response body: every field the
translator reads is optional, mirroring dict `.get` access. -/
structure OllamaResponse where
  message : Option OllamaMessage
  prompt_eval_count : Option Nat
  eval_count : Option Nat
  done : Option Bool
deriving DecidableEq, Repr

/-- Token usage of a canonical response. -/
structure Usage where
  prompt_tokens : Nat
  completion_tokens : Nat
  total_tokens : Nat
deriving DecidableEq, Repr

/-- One choice of a canonical response. -/
structure Choice where
  index : Nat
  role : String
  content : String
  finish_reason : Option String
deriving DecidableEq, Repr

/-- The canonical (OpenAI-shaped) response built from a local response. -/
structure CanonicalResponse where
  id : String
  model : String
  object : String
  created : Nat
  choices : List Choice
  usage : Usage
deriving DecidableEq, Repr

/-- transform_ollama_response (app.py lines 219-251).  The fresh
completion id and creation time are nondeterministic effects in the
source (uuid4, datetime.now) and are passed in here. -/
def transform_ollama_response (rid : String) (created : Nat)
    (o : OllamaResponse) (model_name : String) : CanonicalResponse :=
  let message_content :=
    match o.message with
    | some m => m.content.getD ""
    | none => ""
  let prompt_tokens := o.prompt_eval_count.getD 0
  let completion_tokens := o.eval_count.getD 0
  { id := rid
    model := model_name
    object := "chat.completion"
    created := created
    choices := [{ index := 0
                  role := "assistant"
                  content := message_content
                  finish_reason := if o.done.getD false then some "stop" else none }]
    usage := { prompt_tokens := prompt_tokens
               completion_tokens := completion_tokens
               total_tokens := prompt_tokens + completion_tokens } }

/-- One parsed event of the local runtime's newline-delimited JSON
stream: `message.content` is present only when
`"message" in data and "content" in data["message"]` holds
(app.py line 308); `done` is `data.get("done", False)`. -/
structure OllamaStreamEvent where
  content : Option String
  done : Bool
  prompt_eval_count : Option Nat
  eval_count : Option Nat
deriving DecidableEq, Repr

/-- One raw line of the backend stream, after json.loads: either it
parsed to an event or it raised JSONDecodeError (empty lines are also
skipped by the loop and are modelled as malformed). -/
inductive StreamLine where
  | malformed
  | event (e : OllamaStreamEvent)
deriving DecidableEq, Repr

/-- A server-sent event emitted by handle_ollama_stream: a content chunk
(delta text, possibly empty, plus finish_reason), the final usage chunk,
or the literal `data: [DONE]` marker. -/
inductive SSE where
  | contentChunk (delta : String) (finish : Option String)
  | usageChunk (u : Usage)
  | doneMarker
deriving DecidableEq, Repr

/-- The final usage chunk of handle_ollama_stream (app.py lines 343-347),
each counter defaulting to 0 when the done event omits it. -/
def mkUsage (e : OllamaStreamEvent) : Usage :=
  { prompt_tokens := e.prompt_eval_count.getD 0
    completion_tokens := e.eval_count.getD 0
    total_tokens := e.prompt_eval_count.getD 0 + e.eval_count.getD 0 }

/-- One iteration's delta computation (app.py lines 307-311): when the
event carries `message.content`, the delta is `new_content[len(full_content):]`
and the tracked text becomes `new_content`; otherwise the delta is empty
and the tracked text is unchanged.  Returns (delta, new tracked text). -/
def streamStep (full : String) (e : OllamaStreamEvent) : String × String :=
  match e.content with
  | some nc => (nc.drop full.length, nc)
  | none => ("", full)

/-- The event loop of handle_ollama_stream (app.py lines 299-354) over a
finite list of raw lines, threading the tracked cumulative text `full`
(initially ""): malformed lines are skipped; a chunk is yielded when the
delta is non-empty or the event signals done; on done the usage chunk
and the [DONE] marker are yielded and the loop breaks. -/
def handle_ollama_stream : List StreamLine → String → List SSE
  | [], _ => []
  | .malformed :: rest, full => handle_ollama_stream rest full
  | .event e :: rest, full =>
      let d := (streamStep full e).1
      let full' := (streamStep full e).2
      let head : List SSE :=
        if d ≠ "" ∨ e.done = true then
          [SSE.contentChunk d (if e.done then some "stop" else none)]
        else []
      if e.done then
        head ++ [SSE.usageChunk (mkUsage e), SSE.doneMarker]
      else
        head ++ handle_ollama_stream rest full'

/-- Whether the raw line list contains a well-formed event with
done=True, i.e. the stream reaches completion. -/
def streamCompletes : List StreamLine → Bool
  | [] => false
  | .malformed :: rest => streamCompletes rest
  | .event e :: rest => e.done || streamCompletes rest

/-- Result of one backend HTTP call: a 200 body, or a non-success status
with its body text (raised as HTTPException in the source). -/
inductive CallResult (α : Type) where
  | ok (v : α)
  | httpErr (status : Nat) (detail : String)
deriving DecidableEq, Repr

/-- Everything the non-streaming chat_completions path consumes from its
environment: whether OPENROUTER_API_KEY is set, the DEFAULT_BACKEND
string, the catalog state and clock, what the /api/tags call would
return, what the cloud and local chat calls would return, and the fresh
id / timestamp used by the local response translator.  `α` is the type
of the cloud provider's (pass-through) response body. -/
structure Env (α : Type) where
  apiKeyConfigured : Bool
  defaultBackend : String
  catalog : CatalogState
  now : Nat
  fetch : FetchResult
  cloudResult : CallResult α
  localResult : CallResult OllamaResponse
  rid : String
  created : Nat
deriving Repr

/-- Terminal outcome of the non-streaming path: a success whose body
came from the local translator or straight from the cloud, or an
HTTPException with status and detail. -/
inductive Outcome (α : Type) where
  | localSuccess (resp : CanonicalResponse)
  | cloudSuccess (resp : α)
  | error (status : Nat) (detail : String)
deriving DecidableEq, Repr

/-- The selection step of chat_completions (app.py lines 535-541):
`selected_backend = backend or DEFAULT_BACKEND`, then — overwriting the
same variable — the auto-detection result when it was "auto". -/
def resolveBackend {α : Type} (backendParam : String) (env : Env α)
    (model : String) : String :=
  let selected0 := if backendParam = "" then env.defaultBackend else backendParam
  if selected0 = "auto" then
    (detect_model_backend env.catalog env.now env.fetch model).1
  else selected0

/-- The non-streaming path of chat_completions (app.py lines 534-605),
returning the outcome together with the list of chat-backend calls
actually issued ("cloud"/"local"), in order.  Mirrors the source: the
selection is resolved once by `resolveBackend` before the try block; the
local branch calls handle_ollama_request; the cloud branch first checks
the API key (500 when the selection is "cloud", else 404 naming the
model), then calls handle_openrouter_request, and on an HTTPException
from it falls back to the local backend only when
`selected_backend == "auto"` still holds at that point. -/
def chat_completions {α : Type} (backendParam : String) (env : Env α)
    (req : ChatRequest) : Outcome α × List String :=
  let selected := resolveBackend backendParam env req.model
  if selected = "local" then
    match env.localResult with
    | .ok r => (.localSuccess (transform_ollama_response env.rid env.created r req.model), ["local"])
    | .httpErr s d => (.error s d, ["local"])
  else
    if env.apiKeyConfigured = false then
      if selected = "cloud" then
        (.error 500 "OpenRouter API key not configured", [])
      else
        (.error 404 ("Model " ++ req.model ++ " not found locally and cloud not configured"), [])
    else
      match env.cloudResult with
      | .ok r => (.cloudSuccess r, ["cloud"])
      | .httpErr s d =>
          if selected = "auto" then
            match env.localResult with
            | .ok r =>
                (.localSuccess (transform_ollama_response env.rid env.created r req.model),
                 ["cloud", "local"])
            | .httpErr s2 d2 => (.error s2 d2, ["cloud", "local"])
          else
            (.error s d, ["cloud"])

/-- A failed /api/tags refresh: a transport fault or a non-200 status. -/
def fetchFails (fetch : FetchResult) : Prop :=
  fetch = FetchResult.fault ∨ ∃ s ms, fetch = FetchResult.response s ms ∧ s ≠ 200

/-- A catalog lookup that did not fail: it was served from a fresh
non-empty cache, or the refresh came back with status 200. -/
def lookupOk (st : CatalogState) (now : Nat) (fetch : FetchResult) : Prop :=
  cacheFresh st now = true ∨ ∃ ms, fetch = FetchResult.response 200 ms

/-- A catalog whose cache holds "llama3" but whose timestamp is 120
seconds stale, so a lookup must refresh. -/
def staleCatalog : CatalogState :=
  { cache := [("llama3", { name := some "llama3:latest" })], timestamp := some 0 }

/-- A chat request for a model served by neither demo catalog. -/
def reqCloudModel : ChatRequest :=
  { model := "openai/gpt-4o"
    messages := [{ role := "user", content := "hi" }]
    temperature := none
    max_tokens := none
    top_p := none
    frequency_penalty := none
    presence_penalty := none
    stream := false }

/-- Environment for the fallback scenario: API key configured, empty
catalog (so auto resolves to cloud), the cloud call answering 503, and a
local call that would succeed if it were ever issued. -/
def envAutoCloud503 : Env Unit :=
  { apiKeyConfigured := true
    defaultBackend := "auto"
    catalog := { cache := [], timestamp := none }
    now := 0
    fetch := FetchResult.response 200 []
    cloudResult := CallResult.httpErr 503 "Service Unavailable"
    localResult := CallResult.ok
      { message := some { role := some "assistant", content := some "Hello!" }
        prompt_eval_count := some 1
        eval_count := some 2
        done := some true }
    rid := "chatcmpl-aaaaaaaaaaaaaaaaaaaaaaaaaaaaa"
    created := 0 }

/-- Environment for the unconfigured-cloud scenario: no API key, empty
catalog (so auto resolves to cloud). -/
def envAutoNoKey : Env Unit :=
  { apiKeyConfigured := false
    defaultBackend := "auto"
    catalog := { cache := [], timestamp := none }
    now := 0
    fetch := FetchResult.response 200 []
    cloudResult := CallResult.ok ()
    localResult := CallResult.ok
      { message := none, prompt_eval_count := none, eval_count := none, done := none }
    rid := "chatcmpl-bbbbbbbbbbbbbbbbbbbbbbbbbbbbb"
    created := 0 }

/-- Environment for the explicit-Cloud failure scenario: API key
configured, cloud answering 500. -/
def envExplicitCloud500 : Env Unit :=
  { envAutoCloud503 with cloudResult := CallResult.httpErr 500 "boom" }

end Proxy

namespace Proxy

/-! ## Helper lemmas -/

/-- cacheFresh unfolded. -/
theorem cacheFresh_iff (st : CatalogState) (now : Nat) :
    cacheFresh st now = true ↔
      ∃ ts, st.timestamp = some ts ∧ now - ts < OLLAMA_CACHE_TTL ∧ st.cache ≠ [] := by
  unfold cacheFresh
  cases h : st.timestamp with
  | none => simp
  | some ts =>
      simp [List.isEmpty_iff]

/-- detect_model_backend yields "local" or "cloud". -/
theorem detect_local_or_cloud (st : CatalogState) (now : Nat) (fetch : FetchResult)
    (m : String) :
    (detect_model_backend st now fetch m).1 = "local"
    ∨ (detect_model_backend st now fetch m).1 = "cloud" := by
  by_cases h1 : m ∈ (get_ollama_models st now fetch).names <;>
    by_cases h2 : baseName m ∈ (get_ollama_models st now fetch).names <;>
      simp [detect_model_backend, h1, h2]

/-- The resolved backend is never the literal "auto". -/
theorem resolveBackend_ne_auto {α : Type} (bp : String) (env : Env α) (m : String) :
    resolveBackend bp env m ≠ "auto" := by
  unfold resolveBackend
  by_cases h : (if bp = "" then env.defaultBackend else bp) = "auto"
  · rcases detect_local_or_cloud env.catalog env.now env.fetch m with hd | hd <;>
      simp [h, hd]
  · simp [h]

end Proxy

namespace Proxy

/-- Claim C7: for every canonical chat request, the outbound-to-local
translation carries temperature, max_tokens (as num_predict) and top_p
in the options object exactly when the corresponding field is present on
the request, with the same value, and omits it otherwise. -/
theorem sampling_params_iff_present (r : ChatRequest) :
    optTemperature (transform_ollama_request r) = r.temperature
    ∧ optNumPredict (transform_ollama_request r) = r.max_tokens
    ∧ optTopP (transform_ollama_request r) = r.top_p := by
  obtain ⟨m, msgs, t, mt, tp, fp, pp, s⟩ := r
  cases t <;> cases mt <;> cases tp <;>
    simp [transform_ollama_request, optTemperature, optNumPredict, optTopP]

/-- Stream usage chunks all come from mkUsage. -/
theorem stream_usage_from_mkUsage (lines : List StreamLine) :
    ∀ (full : String) (u : Usage),
      SSE.usageChunk u ∈ handle_ollama_stream lines full → ∃ e, u = mkUsage e := by
  induction lines with
  | nil => intro full u h; simp [handle_ollama_stream] at h
  | cons l rest ih =>
      intro full u h
      cases l with
      | malformed =>
          rw [handle_ollama_stream] at h
          exact ih full u h
      | event e =>
          rw [handle_ollama_stream] at h
          by_cases hd : e.done
          · simp [hd] at h
            exact ⟨e, h⟩
          · simp [hd] at h
            exact ih _ u h

/-- Claim C4: every canonical response built from a local backend
response satisfies total_tokens = prompt_tokens + completion_tokens,
with prompt and completion counters defaulting to 0 when the upstream
object omits them; and every terminal usage event of a local stream is
built by mkUsage (which applies the same defaults) and satisfies the
same sum equation. -/
theorem usage_total_is_sum :
    (∀ (rid : String) (created : Nat) (o : OllamaResponse) (m : String),
       (transform_ollama_response rid created o m).usage.prompt_tokens
          = o.prompt_eval_count.getD 0
       ∧ (transform_ollama_response rid created o m).usage.completion_tokens
          = o.eval_count.getD 0
       ∧ (transform_ollama_response rid created o m).usage.total_tokens
          = (transform_ollama_response rid created o m).usage.prompt_tokens
            + (transform_ollama_response rid created o m).usage.completion_tokens)
    ∧ (∀ (lines : List StreamLine) (full : String) (u : Usage),
         SSE.usageChunk u ∈ handle_ollama_stream lines full →
         (∃ e : OllamaStreamEvent, u = mkUsage e)
         ∧ u.total_tokens = u.prompt_tokens + u.completion_tokens) := by
  constructor
  · intro rid created o m
    exact ⟨rfl, rfl, rfl⟩
  · intro lines full u h
    obtain ⟨e, he⟩ := stream_usage_from_mkUsage lines full u h
    exact ⟨⟨e, he⟩, by simp [he, mkUsage]⟩

end Proxy

namespace Proxy

/-- Claim C9: a catalog refresh that fails — transport fault or a
non-200 status from the model-listing endpoint — leaves the previous
catalog state (cache and timestamp) unchanged. -/
theorem failed_refresh_keeps_cache (st : CatalogState) (now : Nat)
    (fetch : FetchResult) (h : fetchFails fetch) :
    (get_ollama_models st now fetch).state = st := by
  unfold get_ollama_models
  rcases h with h | ⟨s, ms, h, hs⟩
  · subst h
    by_cases hf : cacheFresh st now <;> simp [hf]
  · subst h
    by_cases hf : cacheFresh st now <;> simp [hf, hs]

/-- C9 witness. -/
theorem failed_refresh_keeps_cache_witness :
    (get_ollama_models staleCatalog 120 FetchResult.fault).state = staleCatalog :=
  failed_refresh_keeps_cache staleCatalog 120 FetchResult.fault (Or.inl rfl)

/-- Claim C10: when the cached model set is empty, a catalog lookup
issues the upstream model-listing call no matter how recent the last
refresh was; the TTL suppresses the upstream call only when the cache is
non-empty (and the timestamp is set and younger than the TTL). -/
theorem empty_cache_always_refreshes (st : CatalogState) (now : Nat)
    (fetch : FetchResult) :
    (st.cache = [] → (get_ollama_models st now fetch).upstreamCalled = true)
    ∧ ((get_ollama_models st now fetch).upstreamCalled = false →
        st.cache ≠ [] ∧ ∃ ts, st.timestamp = some ts ∧ now - ts < OLLAMA_CACHE_TTL) := by
  by_cases hf : cacheFresh st now
  · obtain ⟨ts, hts, hlt, hne⟩ := (cacheFresh_iff st now).mp hf
    constructor
    · intro he; exact absurd he hne
    · intro _; exact ⟨hne, ts, hts, hlt⟩
  · constructor
    · intro _
      unfold get_ollama_models
      cases fetch with
      | response s ms => by_cases hs : s = 200 <;> simp [hf, hs]
      | fault => simp [hf]
    · intro hc
      exfalso
      unfold get_ollama_models at hc
      cases fetch with
      | response s ms =>
          revert hc
          by_cases hs : s = 200 <;> simp [hf, hs]
      | fault =>
          revert hc
          simp [hf]

end Proxy

namespace Proxy

/-- Under a successful lookup the returned names are exactly the keys of
the resulting cache. -/
theorem lookupOk_names_eq_keys (st : CatalogState) (now : Nat) (fetch : FetchResult)
    (h : lookupOk st now fetch) :
    (get_ollama_models st now fetch).names
      = (get_ollama_models st now fetch).state.cache.map Prod.fst := by
  by_cases hf : cacheFresh st now
  · simp [get_ollama_models, hf]
  · rcases h with h | ⟨ms, h⟩
    · exact absurd h hf
    · subst h
      simp [get_ollama_models, hf]

/-- Claim C3, counterexample: "llama3" is a key of the catalog cache,
yet auto selection returns "cloud" for it — the cache entry is 120
seconds stale, the refresh faults, and get_ollama_models then answers
with the empty name list while leaving the cache (still holding
"llama3") in place.  This refutes the claim as stated, which asks for
"local" whenever the model is a key of the cache. -/
theorem stale_cache_detect_counterexample :
    (detect_model_backend staleCatalog 120 FetchResult.fault "llama3").1 = "cloud"
    ∧ "llama3" ∈ staleCatalog.cache.map Prod.fst
    ∧ (detect_model_backend staleCatalog 120 FetchResult.fault "llama3").2
        = staleCatalog := by
  refine ⟨by decide, by decide, by decide⟩

/-- Claim C3, amended: provided the catalog lookup succeeds (fresh
non-empty cache, or a refresh answered with status 200), backend
selection under Auto returns "local" iff the model identifier or its
base name is a key of the catalog cache, and otherwise returns
"cloud". -/
theorem auto_selection_iff_catalog_key (st : CatalogState) (now : Nat)
    (fetch : FetchResult) (m : String) (h : lookupOk st now fetch) :
    ((detect_model_backend st now fetch m).1 = "local" ↔
       m ∈ (detect_model_backend st now fetch m).2.cache.map Prod.fst
       ∨ baseName m ∈ (detect_model_backend st now fetch m).2.cache.map Prod.fst)
    ∧ ((detect_model_backend st now fetch m).1 = "local"
       ∨ (detect_model_backend st now fetch m).1 = "cloud") := by
  refine ⟨?_, detect_local_or_cloud st now fetch m⟩
  have hk := lookupOk_names_eq_keys st now fetch h
  have hstate : (detect_model_backend st now fetch m).2
      = (get_ollama_models st now fetch).state := by
    by_cases h1 : m ∈ (get_ollama_models st now fetch).names <;>
      by_cases h2 : baseName m ∈ (get_ollama_models st now fetch).names <;>
        simp [detect_model_backend, h1, h2]
  rw [hstate, ← hk]
  by_cases h1 : m ∈ (get_ollama_models st now fetch).names <;>
    by_cases h2 : baseName m ∈ (get_ollama_models st now fetch).names <;>
      simp [detect_model_backend, h1, h2]

/-- C3 witness: a fresh cache holding "llama3" answers "local" for
"llama3:latest". -/
theorem auto_selection_iff_catalog_key_witness :
    ((detect_model_backend ⟨[("llama3", ⟨some "llama3:latest"⟩)], some 10⟩ 20
        FetchResult.fault "llama3:latest").1 = "local" ↔
       "llama3:latest" ∈ (detect_model_backend ⟨[("llama3", ⟨some "llama3:latest"⟩)], some 10⟩ 20
          FetchResult.fault "llama3:latest").2.cache.map Prod.fst
       ∨ baseName "llama3:latest" ∈ (detect_model_backend ⟨[("llama3", ⟨some "llama3:latest"⟩)], some 10⟩ 20
          FetchResult.fault "llama3:latest").2.cache.map Prod.fst)
    ∧ ((detect_model_backend ⟨[("llama3", ⟨some "llama3:latest"⟩)], some 10⟩ 20
          FetchResult.fault "llama3:latest").1 = "local"
       ∨ (detect_model_backend ⟨[("llama3", ⟨some "llama3:latest"⟩)], some 10⟩ 20
          FetchResult.fault "llama3:latest").1 = "cloud") :=
  auto_selection_iff_catalog_key ⟨[("llama3", ⟨some "llama3:latest"⟩)], some 10⟩ 20
    FetchResult.fault "llama3:latest" (Or.inl (by decide))

end Proxy

namespace Proxy

/-- Claim C1 (code bug): whenever the API key is set, auto resolved to
"cloud" and the cloud call fails, the error is surfaced after a single
cloud call and the local backend is never tried — the source's fallback
guard `selected_backend == "auto"` can no longer hold, that variable
having been overwritten by the resolution; in particular the 503
fallback scenario surfaces the 503. -/
theorem auto_cloud_failure_never_falls_back :
    (∀ (α : Type) (env : Env α) (req : ChatRequest) (s : Nat) (d : String),
       env.apiKeyConfigured = true →
       resolveBackend "auto" env req.model = "cloud" →
       env.cloudResult = CallResult.httpErr s d →
       chat_completions "auto" env req = (Outcome.error s d, ["cloud"]))
    ∧ chat_completions "auto" envAutoCloud503 reqCloudModel
        = (Outcome.error 503 "Service Unavailable", ["cloud"]) := by
  constructor
  · intro α env req s d hkey hres hcloud
    simp [chat_completions, hres, hkey, hcloud]
  · decide

/-- Claim C2: explicit Cloud override with a configured key surfaces the
cloud error status verbatim, and only the cloud backend is called. -/
theorem explicit_cloud_failure_surfaced (α : Type) (env : Env α) (req : ChatRequest)
    (s : Nat) (d : String)
    (hkey : env.apiKeyConfigured = true)
    (hcloud : env.cloudResult = CallResult.httpErr s d) :
    chat_completions "cloud" env req = (Outcome.error s d, ["cloud"])
    ∧ "local" ∉ (chat_completions "cloud" env req).2 := by
  have : chat_completions "cloud" env req = (Outcome.error s d, ["cloud"]) := by
    simp [chat_completions, resolveBackend, hkey, hcloud]
  refine ⟨this, ?_⟩
  rw [this]
  simp

/-- C2 witness: override=Cloud, cloud returns 500. -/
theorem explicit_cloud_failure_surfaced_witness :
    chat_completions "cloud" envExplicitCloud500 reqCloudModel
      = (Outcome.error 500 "boom", ["cloud"])
    ∧ "local" ∉ (chat_completions "cloud" envExplicitCloud500 reqCloudModel).2 :=
  explicit_cloud_failure_surfaced Unit envExplicitCloud500 reqCloudModel 500 "boom" rfl rfl

/-- Claim C8 (code bug): when auto resolves to "cloud" and no API key is
configured, the request fails with the 500 configuration error, not the
404 naming the model — the 404 branch requires `selected_backend` to
differ from "cloud", impossible after the overwrite. -/
theorem auto_nokey_gives_config_error :
    (∀ (α : Type) (env : Env α) (req : ChatRequest),
       env.apiKeyConfigured = false →
       resolveBackend "auto" env req.model = "cloud" →
       chat_completions "auto" env req
         = (Outcome.error 500 "OpenRouter API key not configured", []))
    ∧ chat_completions "auto" envAutoNoKey reqCloudModel
        = (Outcome.error 500 "OpenRouter API key not configured", []) := by
  constructor
  · intro α env req hkey hres
    simp [chat_completions, hres, hkey]
  · decide

end Proxy

namespace Proxy

/-- Claim C5. -/
theorem stream_delta_is_suffix :
    (∀ (full nc : String) (rest : List StreamLine) (e : OllamaStreamEvent),
       e.content = some nc → e.done = false → nc.drop full.length ≠ "" →
       handle_ollama_stream (StreamLine.event e :: rest) full
         = SSE.contentChunk (nc.drop full.length) none :: handle_ollama_stream rest nc)
    ∧ handle_ollama_stream
        [StreamLine.event ⟨some "Hi", false, none, none⟩,
         StreamLine.event ⟨some "Hi there", false, none, none⟩,
         StreamLine.event ⟨some "Hi there!", true, some 3, some 5⟩] ""
      = [SSE.contentChunk "Hi" none, SSE.contentChunk " there" none,
         SSE.contentChunk "!" (some "stop"),
         SSE.usageChunk ⟨3, 5, 8⟩, SSE.doneMarker] := by
  constructor
  · intro full nc rest e hc hd hne
    rw [handle_ollama_stream]
    simp [streamStep, hc, hd, hne]
  · decide

/-- Claim C6. -/
theorem stream_terminal_shape (lines : List StreamLine) :
    ∀ full : String, streamCompletes lines = true →
      ∃ pre u,
        handle_ollama_stream lines full = pre ++ [SSE.usageChunk u, SSE.doneMarker]
        ∧ ∀ x ∈ pre, ∃ dl f, x = SSE.contentChunk dl f := by
  induction lines with
  | nil => intro full h; simp [streamCompletes] at h
  | cons l rest ih =>
      intro full h
      cases l with
      | malformed =>
          rw [streamCompletes] at h
          rw [handle_ollama_stream]
          exact ih full h
      | event e =>
          by_cases hd : e.done
          · refine ⟨if (streamStep full e).1 ≠ "" ∨ e.done = true then
                [SSE.contentChunk (streamStep full e).1
                  (if e.done then some "stop" else none)] else [],
              mkUsage e, ?_, ?_⟩
            · rw [handle_ollama_stream]
              simp [hd]
            · intro x hx
              split at hx
              · simp at hx
                exact ⟨_, _, hx⟩
              · simp at hx
          · rw [streamCompletes] at h
            simp [hd] at h
            obtain ⟨pre, u, hout, hpre⟩ := ih (streamStep full e).2 h
            refine ⟨(if (streamStep full e).1 ≠ "" ∨ e.done = true then
                [SSE.contentChunk (streamStep full e).1
                  (if e.done then some "stop" else none)] else []) ++ pre,
              u, ?_, ?_⟩
            · rw [handle_ollama_stream]
              simp [hd, hout]
            · intro x hx
              rcases List.mem_append.mp hx with hx | hx
              · split at hx
                · simp at hx
                  exact ⟨_, _, hx⟩
                · simp at hx
              · exact hpre x hx

/-- C6 witness: the three-event demo stream completes and decomposes as
one usage chunk then the termination marker. -/
theorem stream_terminal_shape_witness :
    ∃ pre u,
      handle_ollama_stream
          [StreamLine.event ⟨some "Hi", false, none, none⟩,
           StreamLine.event ⟨some "Hi there!", true, some 3, some 5⟩] ""
        = pre ++ [SSE.usageChunk u, SSE.doneMarker]
      ∧ ∀ x ∈ pre, ∃ dl f, x = SSE.contentChunk dl f :=
  stream_terminal_shape
    [StreamLine.event ⟨some "Hi", false, none, none⟩,
     StreamLine.event ⟨some "Hi there!", true, some 3, some 5⟩] "" (by decide)

end Proxy

namespace Proxy

/-- C4 witness: the usage chunk of a one-event done stream has
total = 3 + 5. -/
theorem usage_total_is_sum_witness :
    (∃ e : OllamaStreamEvent, (⟨3, 5, 8⟩ : Usage) = mkUsage e)
    ∧ (⟨3, 5, 8⟩ : Usage).total_tokens
        = (⟨3, 5, 8⟩ : Usage).prompt_tokens + (⟨3, 5, 8⟩ : Usage).completion_tokens :=
  usage_total_is_sum.2 [StreamLine.event ⟨some "Hi", true, some 3, some 5⟩] ""
    ⟨3, 5, 8⟩ (by decide)

/-- C5 witness: tracked text "Hi", cumulative event "Hi there". -/
theorem stream_delta_is_suffix_witness :
    handle_ollama_stream
        [StreamLine.event ⟨some "Hi there", false, none, none⟩] "Hi"
      = SSE.contentChunk " there" none :: handle_ollama_stream [] "Hi there" :=
  stream_delta_is_suffix.1 "Hi" "Hi there" []
    ⟨some "Hi there", false, none, none⟩ rfl rfl (by decide)

/-- C10 witness: an empty cache with a zero-age timestamp still triggers
the upstream call. -/
theorem empty_cache_always_refreshes_witness :
    (get_ollama_models ⟨[], some 0⟩ 0 FetchResult.fault).upstreamCalled = true :=
  (empty_cache_always_refreshes ⟨[], some 0⟩ 0 FetchResult.fault).1 rfl

/-- C1 companion witness. -/
theorem auto_cloud_failure_never_falls_back_witness :
    chat_completions "auto" envAutoCloud503 reqCloudModel
      = (Outcome.error 503 "Service Unavailable", ["cloud"]) :=
  auto_cloud_failure_never_falls_back.1 Unit envAutoCloud503 reqCloudModel 503
    "Service Unavailable" rfl (by decide) rfl

/-- C8 companion witness. -/
theorem auto_nokey_gives_config_error_witness :
    chat_completions "auto" envAutoNoKey reqCloudModel
      = (Outcome.error 500 "OpenRouter API key not configured", []) :=
  auto_nokey_gives_config_error.1 Unit envAutoNoKey reqCloudModel rfl (by decide)

end Proxy
